import Mathlib

/-!
Shallow embedding of the fence token-issuance and client-trust subsystem:

* `fence/blueprints/login/redirect.py` — login redirect validation,
* `fence/models.py` — the OAuth2 `Client` model and its policy methods,
* `fence/oidc/jwt_generator.py` — the grant handler minting token responses.

Python exceptions are modelled with `Except PyErr`; the token signer
(`fence.jwt.token`, an external collaborator) is modelled freely: a minted
token is a constructor application recording exactly the arguments the
source passes to the signer, and a caller-supplied token string is kept as
a distinct constructor, so "reused verbatim" versus "newly minted" is
decidable in the model.
-/

deriving instance DecidableEq for Except

namespace Fence

/-- Python exceptions that can escape the embedded code paths. -/
inductive PyErr where
  /-- fence.oidc.errors.OIDCError -/
  | oidcError (msg : String)
  /-- fence.errors.UserError (a client error / HTTP 400) -/
  | userError (msg : String)
  /-- builtin AttributeError -/
  | attributeError (msg : String)
  /-- builtin TypeError -/
  | typeError (msg : String)
  /-- sqlalchemy UnmappedInstanceError, raised by `Session.__contains__` on
  an object with no instance state (in particular Python `None`). -/
  | unmappedInstanceError
  /-- builtin IndexError -/
  | indexError
  deriving DecidableEq, Repr

/-- Python `str.split(sep)` with an explicit one-character separator:
splits at every occurrence, keeping empty pieces, and returns a
one-element list holding the empty string on empty input. -/
def splitOnChar (sep : Char) : List Char → List (List Char)
  | [] => [[]]
  | c :: cs =>
    let r := splitOnChar sep cs
    if c = sep then [] :: r
    else
      match r with
      | [] => [[c]]
      | h :: t => (c :: h) :: t

/-- Python `s.split(sep)` for a one-character separator. -/
def pySplit (s : String) (sep : Char) : List String :=
  (splitOnChar sep s.toList).map List.asString

/-- Python `s.rstrip("/")`: drop every trailing slash. -/
def rstripSlash (s : String) : String :=
  ((s.toList.reverse.dropWhile (fun c => c = '/')).reverse).asString

/-- The characters Python 2.7 `urlparse` accepts inside a URL scheme. -/
def schemeChars : List Char :=
  "abcdefghijklmnopqrstuvwxyzABCDEFGHIJKLMNOPQRSTUVWXYZ0123456789+-.".toList

/-- The scheme and netloc components computed by Python 2.7
`urlparse.urlsplit` (the two components `allowed_login_redirects` uses).
A candidate scheme before the first `:` is accepted when it is `http`,
or when it is made of scheme characters and the remainder is not a pure
digit string (the port-number special case); the netloc is the text
after a leading `//` up to the first `/`, `?` or `#`. -/
def urlsplitSchemeNetloc (url : String) : String × String :=
  let cs := url.toList
  let (scheme, rest) :=
    match cs.findIdx? (fun c => c = ':') with
    | some i =>
      if 0 < i then
        let pre := cs.take i
        let post := cs.drop (i + 1)
        if pre = "http".toList then
          (pre, post)
        else if pre.all (fun c => schemeChars.contains c) &&
            (post.isEmpty || post.any (fun c => !c.isDigit)) then
          (pre.map Char.toLower, post)
        else ([], cs)
      else ([], cs)
    | none => ([], cs)
  let netloc :=
    match rest with
    | '/' :: '/' :: tail =>
      tail.takeWhile (fun c => !(c = '/' || c = '?' || c = '#'))
    | _ => []
  (scheme.asString, netloc.asString)

/-- The `client` table row (fence/models.py `Client`), restricted to the
columns the verified methods read.  `redirect_uris` holds the parsed
newline-delimited `redirect_uri` column of the authlib mixin. -/
structure Client where
  client_id : String
  /-- nullable Boolean column; `Option.none` models SQL NULL. -/
  is_confidential : Option Bool
  /-- the `_allowed_scopes` text column (space-joined scope names). -/
  allowed_scopes_column : String
  redirect_uris : List String
  deriving DecidableEq, Repr

/-- The class attribute `Client._scopes = ["compute", "storage", "user"]`,
shared by every client instance. -/
def Client.scopes_attr : List String := ["compute", "storage", "user"]

/-- `Client.allowed_scopes`: `self._allowed_scopes.split(" ")`. -/
def Client.allowed_scopes (c : Client) : List String :=
  pySplit c.allowed_scopes_column ' '

/-- `Client.client_type`: public only when `is_confidential is False`;
both `True` and NULL give "confidential". -/
def Client.client_type (c : Client) : String :=
  if c.is_confidential = some false then "public" else "confidential"

/-- Python truthiness of a nullable boolean column (`None` is falsy). -/
def truthy : Option Bool → Bool
  | some b => b
  | Option.none => false

/-- `Client.check_token_endpoint_auth_method`:
`(self.is_confidential and method in auth_methods) or
 (not self.is_confidential and method == "none")`,
returned by Python as a truthy/falsy value, modelled by its truthiness. -/
def Client.check_token_endpoint_auth_method (c : Client) (method : String) : Bool :=
  let auth_methods := ["client_secret_basic", "client_secret_post"]
  (truthy c.is_confidential && auth_methods.contains method) ||
  (!truthy c.is_confidential && method == "none")

/-- `Client.validate_scopes`: `scopes = scopes[0].split(",")` (IndexError on
an empty list), then checks each piece for membership in the class
attribute `self._scopes`. -/
def Client.validate_scopes (_c : Client) (scopes : List String) : Except PyErr Bool :=
  match scopes with
  | [] => Except.error PyErr.indexError
  | s0 :: _ =>
    Except.ok ((pySplit s0 ',').all (fun scope => Client.scopes_attr.contains scope))

/-- The flask application/configuration context read by `RedirectMixin`
(fence/blueprints/login/redirect.py). -/
structure RedirectConfig where
  /-- `config.get("LOGIN_REDIRECT_WHITELIST", [])` -/
  login_redirect_whitelist : List String
  /-- `config["BASE_URL"]` -/
  base_url : String
  /-- whether `"fence" in config.get("OPENID_CONNECT", {})` -/
  openid_connect_has_fence : Bool
  /-- `flask.url_for("login.fencelogin")` -/
  fencelogin_path : String
  /-- `session.query(Client).all()` -/
  clients : List Client

/-- `RedirectMixin.allowed_login_redirects`: whitelist, then `BASE_URL`,
then its scheme://netloc origin, then (if the fence provider is
configured) `BASE_URL.rstrip("/") + url_for("login.fencelogin")`, then
every redirect URI of every client; the result is the set comprehension
mapping `rstrip("/")` over all of them (membership in the returned list
models membership in the Python set). -/
def allowed_login_redirects (cfg : RedirectConfig) : List String :=
  let allowed := cfg.login_redirect_whitelist
  let allowed := allowed ++ [cfg.base_url]
  let origin := urlsplitSchemeNetloc cfg.base_url
  let allowed := allowed ++ [origin.1 ++ "://" ++ origin.2]
  let allowed :=
    if cfg.openid_connect_has_fence then
      allowed ++ [rstripSlash cfg.base_url ++ cfg.fencelogin_path]
    else allowed
  let allowed := allowed ++ (cfg.clients.map (fun c => c.redirect_uris)).flatten
  allowed.map rstripSlash

/-- `RedirectMixin.validate_redirect`: raise `UserError` unless
`url.rstrip("/")` is a member of `allowed_login_redirects`. -/
def validate_redirect (cfg : RedirectConfig) (url : String) : Except PyErr Unit :=
  if rstripSlash url ∈ allowed_login_redirects cfg then Except.ok ()
  else Except.error (PyErr.userError ("invalid login redirect URL " ++ url))

/-- Modelled from the spec: `fence/settings.py` is not among the sources;
the spec (section 8) and the test settings (`tests/test_settings.py`) fix
the access-token TTL at 1200 seconds. -/
def ACCESS_TOKEN_EXPIRES_IN : Nat := 1200

/-- Modelled from the spec: `fence/settings.py` is not among the sources;
the test settings fix the refresh-token TTL at 2592000 seconds (30 days). -/
def REFRESH_TOKEN_EXPIRES_IN : Nat := 2592000

/-- A `User` table row, restricted to the `id` column the grant handler reads. -/
structure User where
  id : Int
  deriving DecidableEq, Repr

/-- One entry of `flask.current_app.keypairs`. -/
structure Keypair where
  kid : String
  private_key : String
  deriving DecidableEq, Repr

/-- An `authorization_code` table row: the opaque `code` column (nullable)
and the related `user`. -/
structure AuthorizationCode where
  code : Option String
  user : User
  deriving DecidableEq, Repr

/-- Free model of the token signer collaborator (`fence.jwt.token`): a
minted token records exactly the arguments passed to the signer, and a
token supplied by the caller as an encoded string stays `Token.str`. -/
inductive Token where
  /-- an already-encoded token string passed in by the caller -/
  | str (s : String)
  /-- `generate_signed_id_token(...).token` -/
  | signedId (kid : String) (private_key : String) (user : User) (expires_in : Nat)
      (client_id : String) (audiences : List String) (nonce : Option String)
      (linked_google_email : Option String) (linked_google_account_exp : Option Int)
  /-- `generate_signed_access_token(...).token` -/
  | signedAccess (kid : String) (private_key : String) (user : User) (expires_in : Nat)
      (scopes : List String) (client_id : String) (linked_google_email : Option String)
  /-- `generate_signed_refresh_token(...).token` -/
  | signedRefresh (kid : String) (private_key : String) (user : User) (expires_in : Nat)
      (scopes : List String) (client_id : String)
  deriving DecidableEq, Repr

/-- The audience list an ID token was signed over. -/
def Token.audiences : Token → Option (List String)
  | Token.signedId _ _ _ _ _ audiences _ _ _ => some audiences
  | _ => Option.none

/-- The scope list an access or refresh token was signed over. -/
def Token.scopes : Token → Option (List String)
  | Token.signedAccess _ _ _ _ scopes _ _ => some scopes
  | Token.signedRefresh _ _ _ _ scopes _ => some scopes
  | _ => Option.none

/-- The token response dictionary.  `Option.none` in `access_token` or
`refresh_token` models the absence of that key from the Python dict. -/
structure TokenResponse where
  token_type : String
  id_token : Token
  access_token : Option Token
  refresh_token : Option Token
  expires_in : Nat
  deriving DecidableEq, Repr

/-- The flask application / request / database context the grant handler
reads: the signing keypairs, the `User` and `AuthorizationCode` tables in
query order, the pieces of `flask.request` consulted for the `code`
parameter, and the linked-Google-account lookups (external collaborators
`get_linked_google_account_email` / `get_linked_google_account_exp`). -/
structure Env where
  keypairs : List Keypair
  users : List User
  authorization_codes : List AuthorizationCode
  request_method : String
  request_args_code : Option String
  request_form_code : Option String
  linked_google_email : Int → Option String
  linked_google_account_exp : Int → Option Int

/-- The `user` keyword argument: Python `None`, an object attached to
`current_session`, or a detached object (not in the session, so the code
re-queries it by id). -/
inductive UserArg where
  | none
  | attached (u : User)
  | detached (u : User)
  deriving DecidableEq, Repr

/-- The `scope` keyword argument: Python `None`, a string, or a list. -/
inductive ScopeArg where
  | none
  | str (s : String)
  | list (l : List String)
  deriving DecidableEq, Repr

/-- Decoded refresh-token claims (`refresh_token_claims`); `sub` holds the
integer value of `int(refresh_token_claims["sub"])`. -/
structure RefreshTokenClaims where
  sub : Int
  deriving DecidableEq, Repr

/-- The keyword arguments of `generate_token` and the two response
generators, with the Python default values. -/
structure Args where
  include_access_token : Bool := true
  user : UserArg := UserArg.none
  scope : ScopeArg := ScopeArg.none
  include_refresh_token : Bool := true
  nonce : Option String := Option.none
  refresh_token : Option String := Option.none
  refresh_token_claims : Option RefreshTokenClaims := Option.none

/-- The shared prelude of both response generators:
`if user not in current_session: user = current_session.query(User).filter_by(id=user.id).first()`.
For Python `None` the membership test itself raises
`UnmappedInstanceError` (sqlalchemy `Session.__contains__` finds no
instance state); an attached object is kept; a detached object is
re-queried by id, possibly yielding nothing. -/
def rebindUser (env : Env) : UserArg → Except PyErr (Option User)
  | UserArg.none => Except.error PyErr.unmappedInstanceError
  | UserArg.attached u => Except.ok (some u)
  | UserArg.detached u => Except.ok (env.users.find? (fun r => r.id == u.id))

/-- `if not isinstance(scope, list): scope = scope.split(" ")`; Python
`None` has no `split` attribute. -/
def normalizeScope : ScopeArg → Except PyErr (List String)
  | ScopeArg.list l => Except.ok l
  | ScopeArg.str s => Except.ok (pySplit s ' ')
  | ScopeArg.none => Except.error (PyErr.attributeError "NoneType object has no attribute split")

/-- `flask.current_app.keypairs[0]` (IndexError when the list is empty). -/
def keypair0 (env : Env) : Except PyErr Keypair :=
  match env.keypairs with
  | [] => Except.error PyErr.indexError
  | kp :: _ => Except.ok kp

/-- The `if not user:` block of `generate_token_response` (jwt_generator.py
lines 136-158): for an authorization_code grant read the `code` request
parameter (query string on GET, form otherwise) and take the user of the
first matching `AuthorizationCode` row — when no row matches, `first()`
returns `None` and `.user` raises AttributeError; for a refresh_token
grant query the first user whose id equals the integer `sub` claim —
subscripting absent claims raises TypeError.  (A `None` code parameter is
compared as SQL NULL, matching rows whose `code` column is NULL.) -/
def lookupMissingUser (env : Env) (grant_type : String) (args : Args) :
    Except PyErr (Option User) :=
  let afterCode : Except PyErr (Option User) :=
    if grant_type = "authorization_code" then
      let code :=
        if env.request_method = "GET" then env.request_args_code
        else env.request_form_code
      match env.authorization_codes.find? (fun r => r.code == code) with
      | Option.none =>
        Except.error (PyErr.attributeError "NoneType object has no attribute user")
      | some row => Except.ok (some row.user)
    else Except.ok Option.none
  if grant_type = "refresh_token" then
    match args.refresh_token_claims with
    | Option.none =>
      Except.error (PyErr.typeError "NoneType object is not subscriptable")
    | some claims => Except.ok (env.users.find? (fun r => r.id == claims.sub))
  else afterCode

/-- The principal resolution of `generate_token_response`: a user already
rebound by the session prelude is kept, otherwise the `if not user:`
block looks one up by grant type. -/
def resolveGrantUser (env : Env) (grant_type : String) (args : Args)
    (user0 : Option User) : Except PyErr (Option User) :=
  match user0 with
  | some u => Except.ok (some u)
  | Option.none => lookupMissingUser env grant_type args

/-- `generate_token_response` (jwt_generator.py lines 120-207): rebind the
session user, resolve a missing user by grant type, fetch the active
keypair, look up linked-Google claims (`user.id` on a still-missing user
raises AttributeError), normalize the scope, mint ID and access tokens,
reuse the passed refresh token or mint a new one, and assemble the
five-key response.  `include_refresh_token` is accepted but never read. -/
def generate_token_response (env : Env) (client : Client) (grant_type : String)
    (args : Args) : Except PyErr TokenResponse :=
  match rebindUser env args.user with
  | Except.error e => Except.error e
  | Except.ok user0 =>
    match resolveGrantUser env grant_type args user0 with
    | Except.error e => Except.error e
    | Except.ok userOpt =>
      match keypair0 env with
      | Except.error e => Except.error e
      | Except.ok keypair =>
        match userOpt with
        | Option.none =>
          Except.error (PyErr.attributeError "NoneType object has no attribute id")
        | some user =>
          let linked_google_email := env.linked_google_email user.id
          let linked_google_account_exp := env.linked_google_account_exp user.id
          match normalizeScope args.scope with
          | Except.error e => Except.error e
          | Except.ok scope =>
            let id_token := Token.signedId keypair.kid keypair.private_key user
              ACCESS_TOKEN_EXPIRES_IN client.client_id scope args.nonce
              linked_google_email linked_google_account_exp
            let access_token := Token.signedAccess keypair.kid keypair.private_key
              user ACCESS_TOKEN_EXPIRES_IN scope client.client_id linked_google_email
            let refresh_token : Token :=
              match args.refresh_token with
              | Option.none => Token.signedRefresh keypair.kid keypair.private_key
                  user REFRESH_TOKEN_EXPIRES_IN scope client.client_id
              | some rt => Token.str rt
            Except.ok
              { token_type := "Bearer"
                id_token := id_token
                access_token := some access_token
                refresh_token := some refresh_token
                expires_in := ACCESS_TOKEN_EXPIRES_IN }

/-- `generate_implicit_response` (jwt_generator.py lines 55-117): rebind
the session user, raise `OIDCError "user not authenticated"` when the
re-query found nothing, fetch the active keypair, look up linked-Google
claims, normalize the scope and force the literal scope `"user"` into it,
mint the ID token, and assemble a response without a refresh token,
adding an access token only when `include_access_token` is set. -/
def generate_implicit_response (env : Env) (client : Client) (_grant_type : String)
    (args : Args) : Except PyErr TokenResponse :=
  match rebindUser env args.user with
  | Except.error e => Except.error e
  | Except.ok userOpt =>
    match userOpt with
    | Option.none => Except.error (PyErr.oidcError "user not authenticated")
    | some user =>
      match keypair0 env with
      | Except.error e => Except.error e
      | Except.ok keypair =>
        let linked_google_email := env.linked_google_email user.id
        let linked_google_account_exp := env.linked_google_account_exp user.id
        match normalizeScope args.scope with
        | Except.error e => Except.error e
        | Except.ok scope0 =>
          let scope := if scope0.contains "user" then scope0 else scope0 ++ ["user"]
          let id_token := Token.signedId keypair.kid keypair.private_key user
            ACCESS_TOKEN_EXPIRES_IN client.client_id scope args.nonce
            linked_google_email linked_google_account_exp
          Except.ok
            { token_type := "Bearer"
              id_token := id_token
              access_token :=
                if args.include_access_token then
                  some (Token.signedAccess keypair.kid keypair.private_key user
                    ACCESS_TOKEN_EXPIRES_IN scope client.client_id
                    linked_google_email)
                else Option.none
              refresh_token := Option.none
              expires_in := ACCESS_TOKEN_EXPIRES_IN }

/-- `generate_token` (jwt_generator.py lines 19-52): dispatch on the grant
type; any grant type outside the three handled ones falls off the end of
the function, returning Python `None` (no token response, no exception). -/
def generate_token (env : Env) (client : Client) (grant_type : String) (args : Args) :
    Except PyErr (Option TokenResponse) :=
  if grant_type = "authorization_code" ∨ grant_type = "refresh_token" then
    (generate_token_response env client grant_type args).map some
  else if grant_type = "implicit" then
    (generate_implicit_response env client grant_type args).map some
  else
    Except.ok Option.none

/-- Whether a result is the raise of a tagged `OIDCError`. -/
def raisedOIDCError {α : Type} : Except PyErr α → Bool
  | Except.error (PyErr.oidcError _) => true
  | _ => false

/-- The audience list of the ID token of a successful `generate_token` result. -/
def resultIdAudiences (r : Except PyErr (Option TokenResponse)) : Option (List String) :=
  match r with
  | Except.ok (some resp) => resp.id_token.audiences
  | _ => Option.none

/-- The scope list of the access token of a successful `generate_token` result. -/
def resultAccessScopes (r : Except PyErr (Option TokenResponse)) : Option (List String) :=
  match r with
  | Except.ok (some resp) => Option.bind resp.access_token Token.scopes
  | _ => Option.none

/-! Concrete fixtures for the witnesses and counterexamples. -/

/-- A fixture user. -/
def userA : User := { id := 7 }

/-- A fixture signing keypair. -/
def keypairA : Keypair := { kid := "kid-1", private_key := "pk-1" }

/-- A fixture confidential client. -/
def clientA : Client := {
  client_id := "client-a"
  is_confidential := some true
  allowed_scopes_column := "openid user"
  redirect_uris := ["https://portal.example.org/cb"] }

/-- A fixture client with the confidentiality flag left NULL. -/
def clientNoFlag : Client := { clientA with is_confidential := Option.none }

/-- A fixture client deliberately marked non-confidential. -/
def clientPublic : Client := { clientA with is_confidential := some false }

/-- A fixture application context: one keypair, one user, no stored
authorization codes, a GET request without a `code` parameter, no linked
Google account. -/
def envA : Env := {
  keypairs := [keypairA]
  users := [userA]
  authorization_codes := []
  request_method := "GET"
  request_args_code := Option.none
  request_form_code := Option.none
  linked_google_email := fun _ => Option.none
  linked_google_account_exp := fun _ => Option.none }

/-- `envA` with an empty user table, so a detached user resolves to nothing. -/
def envEmptyUsers : Env := { envA with users := [] }

/-- Arguments: attached user, scope given as the list `["openid"]`. -/
def argsListScope : Args := { user := UserArg.attached userA, scope := ScopeArg.list ["openid"] }

/-- `argsListScope` with a detached user. -/
def argsDetached : Args := { argsListScope with user := UserArg.detached userA }

/-- `argsListScope` with the (unused) `include_refresh_token` flag cleared. -/
def argsNoRefreshFlag : Args := { argsListScope with include_refresh_token := false }

/-- `argsListScope` with a previous refresh token passed in. -/
def argsWithRT : Args := { argsListScope with refresh_token := some "previous-refresh-token" }

/-- Arguments leaving `user` as Python `None`. -/
def argsUserNone : Args := { scope := ScopeArg.list ["openid"] }

/-- Refresh-grant arguments: detached user and decoded claims with `sub = 42`. -/
def argsRefreshClaims : Args := {
  user := UserArg.detached userA
  scope := ScopeArg.list ["openid"]
  refresh_token_claims := some { sub := 42 } }

/-- Implicit-grant arguments matching the spec scenario: scope given as the
string `"openid"` and no access token requested. -/
def argsImplicitNoAT : Args := {
  user := UserArg.attached userA
  scope := ScopeArg.str "openid"
  include_access_token := false }

/-- A fixture redirect configuration. -/
def cfgA : RedirectConfig := {
  login_redirect_whitelist := ["https://portal.example.org/"]
  base_url := "https://gen3.datacommons.io/user"
  openid_connect_has_fence := true
  fencelogin_path := "/login/fence/login"
  clients := [clientA] }

/-- The response `generate_token_response` produces on `envA` / `clientA` /
`argsListScope`. -/
def respCodeA : TokenResponse := {
  token_type := "Bearer"
  id_token := Token.signedId "kid-1" "pk-1" userA 1200 "client-a" ["openid"]
    Option.none Option.none Option.none
  access_token := some (Token.signedAccess "kid-1" "pk-1" userA 1200 ["openid"]
    "client-a" Option.none)
  refresh_token := some (Token.signedRefresh "kid-1" "pk-1" userA 2592000
    ["openid"] "client-a")
  expires_in := 1200 }

/-- `respCodeA` with the passed-in refresh token reused verbatim. -/
def respRefreshA : TokenResponse :=
  { respCodeA with refresh_token := some (Token.str "previous-refresh-token") }

/-- The response `generate_implicit_response` produces on `envA` / `clientA` /
`argsListScope`. -/
def respImplicitA : TokenResponse := {
  token_type := "Bearer"
  id_token := Token.signedId "kid-1" "pk-1" userA 1200 "client-a"
    ["openid", "user"] Option.none Option.none Option.none
  access_token := some (Token.signedAccess "kid-1" "pk-1" userA 1200
    ["openid", "user"] "client-a" Option.none)
  refresh_token := Option.none
  expires_in := 1200 }

/-- The response `generate_implicit_response` produces on `envA` / `clientA` /
`argsImplicitNoAT`. -/
def respImplicitNoAT : TokenResponse :=
  { respImplicitA with access_token := Option.none }

/-! Structural lemmas shared by the per-claim theorems. -/

/-- Any successful `generate_token_response` is built from the active
keypair, a resolved user and the normalized scope, and carries all five
response keys, reusing a passed refresh token verbatim. -/
theorem generate_token_response_ok_shape (env : Env) (client : Client)
    (grant_type : String) (args : Args) (resp : TokenResponse)
    (hok : generate_token_response env client grant_type args = Except.ok resp) :
    ∃ kp user scope,
      keypair0 env = Except.ok kp ∧
      normalizeScope args.scope = Except.ok scope ∧
      resp = { token_type := "Bearer"
               id_token := Token.signedId kp.kid kp.private_key user
                 ACCESS_TOKEN_EXPIRES_IN client.client_id scope args.nonce
                 (env.linked_google_email user.id) (env.linked_google_account_exp user.id)
               access_token := some (Token.signedAccess kp.kid kp.private_key user
                 ACCESS_TOKEN_EXPIRES_IN scope client.client_id
                 (env.linked_google_email user.id))
               refresh_token := some (match args.refresh_token with
                 | Option.none => Token.signedRefresh kp.kid kp.private_key user
                     REFRESH_TOKEN_EXPIRES_IN scope client.client_id
                 | some rt => Token.str rt)
               expires_in := ACCESS_TOKEN_EXPIRES_IN } := by
  unfold generate_token_response at hok
  repeat' split at hok
  all_goals try exact Except.noConfusion hok
  all_goals simp only [Except.ok.injEq] at hok
  all_goals subst hok
  · rename_i kp hkp uo u hres x1 sc hsc x0 hrt
    exact ⟨kp, u, sc, hkp, hsc, by simp [hrt]⟩
  · rename_i kp hkp uo u hres x1 sc hsc x0 rt hrt
    exact ⟨kp, u, sc, hkp, hsc, by simp [hrt]⟩

/-- Any successful `generate_implicit_response` is built from the active
keypair, a resolved user and the normalized scope with `"user"` forced in,
has no refresh token, and has an access token exactly when requested. -/
theorem generate_implicit_response_ok_shape (env : Env) (client : Client)
    (gt : String) (args : Args) (resp : TokenResponse)
    (hok : generate_implicit_response env client gt args = Except.ok resp) :
    ∃ kp user scope0,
      keypair0 env = Except.ok kp ∧
      normalizeScope args.scope = Except.ok scope0 ∧
      resp = { token_type := "Bearer"
               id_token := Token.signedId kp.kid kp.private_key user
                 ACCESS_TOKEN_EXPIRES_IN client.client_id
                 (if scope0.contains "user" then scope0 else scope0 ++ ["user"])
                 args.nonce (env.linked_google_email user.id)
                 (env.linked_google_account_exp user.id)
               access_token :=
                 if args.include_access_token then
                   some (Token.signedAccess kp.kid kp.private_key user
                     ACCESS_TOKEN_EXPIRES_IN
                     (if scope0.contains "user" then scope0 else scope0 ++ ["user"])
                     client.client_id (env.linked_google_email user.id))
                 else Option.none
               refresh_token := Option.none
               expires_in := ACCESS_TOKEN_EXPIRES_IN } := by
  unfold generate_implicit_response at hok
  rcases h1 : rebindUser env args.user with e | uo
  · rw [h1] at hok; exact Except.noConfusion hok
  · rw [h1] at hok
    rcases uo with _ | u
    · exact Except.noConfusion hok
    · rcases h2 : keypair0 env with e | kp
      · rw [h2] at hok; exact Except.noConfusion hok
      · rw [h2] at hok
        rcases h3 : normalizeScope args.scope with e | sc
        · rw [h3] at hok; exact Except.noConfusion hok
        · rw [h3] at hok
          simp only [Except.ok.injEq] at hok
          exact ⟨kp, u, sc, rfl, rfl, hok.symm⟩

/-- C1: `validate_redirect` succeeds exactly when the URL with trailing
slashes stripped is a member of `allowed_login_redirects` (the
trailing-slash-normalized union of the whitelist, the base URL and its
origin, the optional fence callback, and every client redirect URI); any
extension of an allowed URL whose normalized form is not itself a member
is rejected with a client error. -/
theorem validate_redirect_iff_member (cfg : RedirectConfig) (url : String) :
    (validate_redirect cfg url = Except.ok () ↔
      rstripSlash url ∈ allowed_login_redirects cfg) ∧
    (∀ a ext, a ∈ allowed_login_redirects cfg →
      rstripSlash (a ++ ext) ∉ allowed_login_redirects cfg →
      validate_redirect cfg (a ++ ext) =
        Except.error (PyErr.userError ("invalid login redirect URL " ++ (a ++ ext)))) := by
  constructor
  · unfold validate_redirect
    split
    · rename_i h; exact ⟨fun _ => h, fun _ => rfl⟩
    · rename_i h
      exact ⟨fun hc => absurd hc (by simp), fun hm => absurd hm h⟩
  · intro a ext _ hna
    unfold validate_redirect
    rw [if_neg hna]

/-- C1 witness: a whitelisted URL is accepted and a prefix-extension of it
is rejected, on the concrete configuration `cfgA`. -/
theorem validate_redirect_iff_member_witness :
    validate_redirect cfgA "https://portal.example.org/" = Except.ok () ∧
    validate_redirect cfgA ("https://portal.example.org" ++ "/malicious") =
      Except.error (PyErr.userError
        ("invalid login redirect URL " ++ ("https://portal.example.org" ++ "/malicious"))) := by
  constructor
  · exact (validate_redirect_iff_member cfgA "https://portal.example.org/").1.mpr (by decide)
  · exact (validate_redirect_iff_member cfgA "").2 "https://portal.example.org"
      "/malicious" (by decide) (by decide)

/-- C7: `client_type` is "public" exactly when `is_confidential` is the
explicit value False; both True and NULL give "confidential". -/
theorem client_type_public_iff_explicit_false (c : Client) :
    (c.client_type = "public" ↔ c.is_confidential = some false) ∧
    (c.is_confidential = some true ∨ c.is_confidential = Option.none →
      c.client_type = "confidential") := by
  unfold Client.client_type
  constructor
  · split
    · rename_i h; simp [h]
    · rename_i h; simp [h]
  · intro h
    rcases h with h | h <;> simp [h]

/-- C7 witness: an explicitly non-confidential client classifies as public
and a client with the flag left NULL classifies as confidential. -/
theorem client_type_public_iff_explicit_false_witness :
    clientPublic.client_type = "public" ∧
    clientNoFlag.client_type = "confidential" := by
  constructor
  · exact (client_type_public_iff_explicit_false clientPublic).1.mpr (by decide)
  · exact (client_type_public_iff_explicit_false clientNoFlag).2 (Or.inr (by decide))

/-- C10: any grant type other than authorization_code, refresh_token and
implicit falls off the end of `generate_token`: no exception, no tokens,
Python `None`. -/
theorem generate_token_unknown_grant_none (env : Env) (client : Client)
    (gt : String) (args : Args)
    (h1 : gt ≠ "authorization_code") (h2 : gt ≠ "refresh_token") (h3 : gt ≠ "implicit") :
    generate_token env client gt args = Except.ok Option.none := by
  unfold generate_token
  rw [if_neg (not_or.mpr ⟨h1, h2⟩), if_neg h3]

/-- C10 witness: a client_credentials grant returns Python `None`. -/
theorem generate_token_unknown_grant_none_witness :
    generate_token envA clientA "client_credentials" argsListScope =
      Except.ok Option.none :=
  generate_token_unknown_grant_none envA clientA "client_credentials" argsListScope
    (by decide) (by decide) (by decide)

/-- C6 counterexample: `validate_scopes` accepts the scope "compute" for a
client whose stored allowed-scope set is only openid and user, so it is
not checking membership in the scopes stored on the client. -/
theorem validate_scopes_claim_counterexample :
    Client.validate_scopes clientA ["compute"] = Except.ok true ∧
    "compute" ∉ Client.allowed_scopes clientA := by decide

/-- C6 amended: for a single-entry comma-delimited scope list,
`validate_scopes` returns true exactly when every comma-separated token is
a member of the fixed class-level list `_scopes = [compute, storage, user]`,
which is the same for every client and independent of the client's stored
allowed scopes. -/
theorem validate_scopes_fixed_class_list (c : Client) (s0 : String) :
    (Client.validate_scopes c [s0] = Except.ok true ↔
      ∀ tok ∈ pySplit s0 ',', tok ∈ Client.scopes_attr) ∧
    (∀ c' scopes, Client.validate_scopes c scopes = Client.validate_scopes c' scopes) := by
  constructor
  · unfold Client.validate_scopes
    simp only [Except.ok.injEq, List.all_eq_true]
    constructor
    · intro h tok htok
      simpa using h tok htok
    · intro h tok htok
      simpa using h tok htok
  · intro c' scopes
    cases scopes <;> rfl

/-- C6 witness: a request for the comma-joined scopes user,storage is
accepted for the fixture client. -/
theorem validate_scopes_fixed_class_list_witness :
    Client.validate_scopes clientA ["user,storage"] = Except.ok true :=
  (validate_scopes_fixed_class_list clientA "user,storage").1.mpr (by decide)

/-- C8 counterexample: a client whose confidentiality flag is NULL is
classified confidential, yet `check_token_endpoint_auth_method` rejects
client_secret_basic for it and accepts the method "none", contradicting
the classification-based rule of the claim. -/
theorem auth_method_claim_counterexample :
    clientNoFlag.client_type = "confidential" ∧
    clientNoFlag.check_token_endpoint_auth_method "client_secret_basic" = false ∧
    clientNoFlag.check_token_endpoint_auth_method "none" = true := by decide

/-- C8 amended: `check_token_endpoint_auth_method` follows the raw
truthiness of `is_confidential`, not `client_type`: it accepts a method
exactly when the flag is the explicit value True and the method is
client_secret_basic or client_secret_post, or the flag is falsy (False or
NULL) and the method is "none". -/
theorem auth_method_truthiness_iff (c : Client) (m : String) :
    c.check_token_endpoint_auth_method m = true ↔
      ((c.is_confidential = some true ∧
        (m = "client_secret_basic" ∨ m = "client_secret_post")) ∨
       (c.is_confidential ≠ some true ∧ m = "none")) := by
  unfold Client.check_token_endpoint_auth_method
  rcases hc : c.is_confidential with _ | b
  · simp [truthy, hc]
  · cases b <;> simp [truthy, hc]

/-- C8 witness: the fixture confidential client accepts client_secret_post. -/
theorem auth_method_truthiness_iff_witness :
    clientA.check_token_endpoint_auth_method "client_secret_post" = true :=
  (auth_method_truthiness_iff clientA "client_secret_post").mpr
    (Or.inl ⟨by decide, Or.inr rfl⟩)

/-- C2 counterexample: an authorization_code grant whose requested scope
list omits "user" mints its ID and access tokens over exactly
`["openid"]` — the literal "user" is not inserted on this path. -/
theorem code_grant_scope_user_counterexample :
    resultIdAudiences (generate_token envA clientA "authorization_code" argsListScope) =
      some ["openid"] ∧
    resultAccessScopes (generate_token envA clientA "authorization_code" argsListScope) =
      some ["openid"] ∧
    "user" ∉ (["openid"] : List String) := by decide

/-- C2 amended: only the implicit path unconditionally forces the literal
scope "user" into the minted tokens; the authorization_code/refresh_token
path signs the ID and access tokens over exactly the normalized requested
scope list, unchanged. -/
theorem user_scope_forced_only_in_implicit (env : Env) (client : Client)
    (gt : String) (args : Args) :
    (∀ resp, generate_implicit_response env client gt args = Except.ok resp →
      ∃ sc, resp.id_token.audiences = some sc ∧ "user" ∈ sc ∧
        ∀ t, resp.access_token = some t → t.scopes = some sc) ∧
    (∀ resp sc, normalizeScope args.scope = Except.ok sc →
      generate_token_response env client gt args = Except.ok resp →
      resp.id_token.audiences = some sc ∧
      ∀ t, resp.access_token = some t → t.scopes = some sc) := by
  constructor
  · intro resp hok
    obtain ⟨kp, u, sc0, hkp, hsc, rfl⟩ :=
      generate_implicit_response_ok_shape env client gt args resp hok
    refine ⟨if sc0.contains "user" then sc0 else sc0 ++ ["user"], rfl, ?_, ?_⟩
    · by_cases h : sc0.contains "user"
      · rw [if_pos h]
        exact List.mem_of_elem_eq_true h
      · rw [if_neg h]
        simp
    · intro t ht
      cases hflag : args.include_access_token <;> rw [hflag] at ht
      · exact absurd ht (by simp)
      · simp only [if_true, Option.some.injEq] at ht
        subst ht
        rfl
  · intro resp sc hsc hok
    obtain ⟨kp, u, sc0, hkp, hsc0, rfl⟩ :=
      generate_token_response_ok_shape env client gt args resp hok
    rw [hsc] at hsc0
    obtain rfl : sc = sc0 := (Except.ok.injEq _ _).mp hsc0
    refine ⟨rfl, fun t ht => ?_⟩
    simp only [Option.some.injEq] at ht
    subst ht
    rfl

/-- C2 witness: on the fixture implicit grant requesting only "openid",
the minted tokens carry the scope list with "user" appended. -/
theorem user_scope_forced_only_in_implicit_witness :
    ∃ sc, respImplicitA.id_token.audiences = some sc ∧ "user" ∈ sc ∧
      ∀ t, respImplicitA.access_token = some t → t.scopes = some sc :=
  (user_scope_forced_only_in_implicit envA clientA "implicit" argsListScope).1
    respImplicitA (by decide)

/-- C4 counterexample: with `include_refresh_token = false` the
authorization_code response still carries a freshly minted refresh token. -/
theorem include_refresh_token_ignored_counterexample :
    argsNoRefreshFlag.include_refresh_token = false ∧
    generate_token_response envA clientA "authorization_code" argsNoRefreshFlag =
      Except.ok respCodeA ∧
    respCodeA.refresh_token ≠ Option.none := by decide

/-- C4 amended: `generate_token_response` never reads
`include_refresh_token`: its successful responses always contain a
refresh_token key, and its result is identical for both values of the
flag. -/
theorem token_response_always_includes_refresh (env : Env) (client : Client)
    (gt : String) (args : Args) :
    (∀ resp, generate_token_response env client gt args = Except.ok resp →
      resp.refresh_token ≠ Option.none) ∧
    (∀ b₁ b₂,
      generate_token_response env client gt { args with include_refresh_token := b₁ } =
      generate_token_response env client gt { args with include_refresh_token := b₂ }) := by
  constructor
  · intro resp hok
    obtain ⟨kp, u, sc, hkp, hsc, rfl⟩ :=
      generate_token_response_ok_shape env client gt args resp hok
    simp
  · intro b₁ b₂
    cases args
    rfl

/-- C4 witness: the flag-cleared fixture call still returns a refresh
token, and flipping the flag does not change the result. -/
theorem token_response_always_includes_refresh_witness :
    respCodeA.refresh_token ≠ Option.none ∧
    generate_token_response envA clientA "authorization_code"
        { argsListScope with include_refresh_token := false } =
      generate_token_response envA clientA "authorization_code"
        { argsListScope with include_refresh_token := true } := by
  constructor
  · exact (token_response_always_includes_refresh envA clientA "authorization_code"
      argsNoRefreshFlag).1 respCodeA (by decide)
  · exact (token_response_always_includes_refresh envA clientA "authorization_code"
      argsListScope).2 false true

/-- C5: when a refresh token is passed in, every successful
`generate_token_response` returns exactly that string in the
refresh_token field, never a newly minted token. -/
theorem refresh_token_reused_verbatim (env : Env) (client : Client) (gt : String)
    (args : Args) (rt : String) (resp : TokenResponse)
    (hrt : args.refresh_token = some rt)
    (hok : generate_token_response env client gt args = Except.ok resp) :
    resp.refresh_token = some (Token.str rt) := by
  obtain ⟨kp, u, sc, hkp, hsc, rfl⟩ :=
    generate_token_response_ok_shape env client gt args resp hok
  simp [hrt]

/-- C5 witness: the fixture refresh grant returns the passed-in token
string verbatim. -/
theorem refresh_token_reused_verbatim_witness :
    respRefreshA.refresh_token = some (Token.str "previous-refresh-token") :=
  refresh_token_reused_verbatim envA clientA "refresh_token" argsWithRT
    "previous-refresh-token" respRefreshA (by decide) (by decide)

/-- C9: every successful implicit response has token_type Bearer, an ID
token, expiry equal to the 1200-second access-token TTL, no refresh_token
key, and an access_token key exactly when `include_access_token` is set. -/
theorem implicit_response_shape (env : Env) (client : Client) (args : Args)
    (resp : TokenResponse)
    (hok : generate_implicit_response env client "implicit" args = Except.ok resp) :
    resp.token_type = "Bearer" ∧
    resp.expires_in = ACCESS_TOKEN_EXPIRES_IN ∧
    resp.expires_in = 1200 ∧
    resp.refresh_token = Option.none ∧
    (resp.access_token.isSome ↔ args.include_access_token = true) ∧
    resp.id_token.audiences.isSome := by
  obtain ⟨kp, u, sc, hkp, hsc, rfl⟩ :=
    generate_implicit_response_ok_shape env client "implicit" args resp hok
  refine ⟨rfl, rfl, rfl, rfl, ?_, by simp [Token.audiences]⟩
  cases hflag : args.include_access_token <;> simp [hflag]

/-- C3 counterexample: an authorization_code grant whose code parameter
matches no stored authorization code aborts with an untagged
AttributeError (`first()` returned None), not with a tagged OIDCError. -/
theorem code_grant_error_untagged_counterexample :
    generate_token envEmptyUsers clientA "authorization_code" argsDetached =
      Except.error (PyErr.attributeError "NoneType object has no attribute user") ∧
    raisedOIDCError (generate_token envEmptyUsers clientA "authorization_code" argsDetached) =
      false := by decide

/-- C3 amended: every principal-resolution failure aborts the grant with an
exception before any token set is produced, but only the implicit path's
user-re-query-found-nothing case raises a tagged OIDCError; a Python-None
user raises UnmappedInstanceError from the session membership test, a
missing/unknown authorization code raises an untagged AttributeError from
`first().user`, and an unresolvable refresh-token subject raises an
untagged AttributeError from `user.id`. -/
theorem grant_resolution_failure_modes (env : Env) (client : Client) (args : Args) :
    (args.user = UserArg.none →
      ∀ gt, gt = "authorization_code" ∨ gt = "refresh_token" ∨ gt = "implicit" →
      generate_token env client gt args = Except.error PyErr.unmappedInstanceError) ∧
    (∀ u, args.user = UserArg.detached u →
      env.users.find? (fun r => r.id == u.id) = Option.none →
      env.authorization_codes.find? (fun r => r.code ==
        (if env.request_method = "GET" then env.request_args_code
         else env.request_form_code)) = Option.none →
      generate_token env client "authorization_code" args =
        Except.error (PyErr.attributeError "NoneType object has no attribute user")) ∧
    (∀ u claims, args.user = UserArg.detached u →
      env.users.find? (fun r => r.id == u.id) = Option.none →
      args.refresh_token_claims = some claims →
      env.users.find? (fun r => r.id == claims.sub) = Option.none →
      env.keypairs ≠ [] →
      generate_token env client "refresh_token" args =
        Except.error (PyErr.attributeError "NoneType object has no attribute id")) ∧
    (∀ u, args.user = UserArg.detached u →
      env.users.find? (fun r => r.id == u.id) = Option.none →
      generate_token env client "implicit" args =
        Except.error (PyErr.oidcError "user not authenticated")) := by
  refine ⟨?_, ?_, ?_, ?_⟩
  · intro h gt hgt
    have hrb : rebindUser env args.user = Except.error PyErr.unmappedInstanceError := by
      rw [h]
      rfl
    have htr : ∀ g, generate_token_response env client g args =
        Except.error PyErr.unmappedInstanceError := by
      intro g
      unfold generate_token_response
      rw [hrb]
    have him : generate_implicit_response env client gt args =
        Except.error PyErr.unmappedInstanceError := by
      unfold generate_implicit_response
      rw [hrb]
    rcases hgt with rfl | rfl | rfl
    · unfold generate_token
      rw [if_pos (Or.inl rfl), htr]
      rfl
    · unfold generate_token
      rw [if_pos (Or.inr rfl), htr]
      rfl
    · unfold generate_token
      rw [if_neg (by decide), if_pos rfl, him]
      rfl
  · intro u hu hfind hcode
    have hrb : rebindUser env args.user = Except.ok Option.none := by
      rw [hu]
      show Except.ok (env.users.find? (fun r => r.id == u.id)) = Except.ok Option.none
      rw [hfind]
    have hlk : lookupMissingUser env "authorization_code" args =
        Except.error (PyErr.attributeError "NoneType object has no attribute user") := by
      unfold lookupMissingUser
      simp [hcode]
    have htr : generate_token_response env client "authorization_code" args =
        Except.error (PyErr.attributeError "NoneType object has no attribute user") := by
      unfold generate_token_response resolveGrantUser
      rw [hrb]
      dsimp only
      rw [hlk]
    unfold generate_token
    rw [if_pos (Or.inl rfl), htr]
    rfl
  · intro u claims hu hfind hclaims hsub hkps
    have hrb : rebindUser env args.user = Except.ok Option.none := by
      rw [hu]
      show Except.ok (env.users.find? (fun r => r.id == u.id)) = Except.ok Option.none
      rw [hfind]
    have hlk : lookupMissingUser env "refresh_token" args = Except.ok Option.none := by
      unfold lookupMissingUser
      simp [hclaims, hsub]
    obtain ⟨kp, rest, henv⟩ : ∃ kp rest, env.keypairs = kp :: rest := by
      rcases henv : env.keypairs with _ | ⟨kp, rest⟩
      · exact absurd henv hkps
      · exact ⟨kp, rest, rfl⟩
    have hkp0 : keypair0 env = Except.ok kp := by
      unfold keypair0
      rw [henv]
    have htr : generate_token_response env client "refresh_token" args =
        Except.error (PyErr.attributeError "NoneType object has no attribute id") := by
      unfold generate_token_response resolveGrantUser
      rw [hrb]
      dsimp only
      rw [hlk]
      dsimp only
      rw [hkp0]
    unfold generate_token
    rw [if_pos (Or.inr rfl), htr]
    rfl
  · intro u hu hfind
    have hrb : rebindUser env args.user = Except.ok Option.none := by
      rw [hu]
      show Except.ok (env.users.find? (fun r => r.id == u.id)) = Except.ok Option.none
      rw [hfind]
    have him : generate_implicit_response env client "implicit" args =
        Except.error (PyErr.oidcError "user not authenticated") := by
      unfold generate_implicit_response
      rw [hrb]
    unfold generate_token
    rw [if_neg (by decide), if_pos rfl, him]
    rfl

/-- C3 witness: on concrete fixtures, an empty-table authorization_code
lookup raises AttributeError, a Python-None user raises
UnmappedInstanceError, an unresolvable refresh subject raises
AttributeError, and only the implicit path raises the tagged OIDCError. -/
theorem grant_resolution_failure_modes_witness :
    generate_token envA clientA "authorization_code" argsUserNone =
      Except.error PyErr.unmappedInstanceError ∧
    generate_token envEmptyUsers clientA "authorization_code" argsDetached =
      Except.error (PyErr.attributeError "NoneType object has no attribute user") ∧
    generate_token envEmptyUsers clientA "refresh_token" argsRefreshClaims =
      Except.error (PyErr.attributeError "NoneType object has no attribute id") ∧
    generate_token envEmptyUsers clientA "implicit" argsDetached =
      Except.error (PyErr.oidcError "user not authenticated") := by
  refine ⟨?_, ?_, ?_, ?_⟩
  · exact (grant_resolution_failure_modes envA clientA argsUserNone).1
      (by decide) "authorization_code" (Or.inl rfl)
  · exact (grant_resolution_failure_modes envEmptyUsers clientA argsDetached).2.1
      userA (by decide) (by decide) (by decide)
  · exact (grant_resolution_failure_modes envEmptyUsers clientA argsRefreshClaims).2.2.1
      userA { sub := 42 } (by decide) (by decide) (by decide) (by decide) (by decide)
  · exact (grant_resolution_failure_modes envEmptyUsers clientA argsDetached).2.2.2
      userA (by decide) (by decide)

/-- C9 witness: the spec scenario — implicit grant with scope "openid" and
`include_access_token = false` — yields a Bearer response with an ID
token, expiry 1200, and neither an access_token nor a refresh_token key. -/
theorem implicit_response_shape_witness :
    respImplicitNoAT.token_type = "Bearer" ∧
    respImplicitNoAT.expires_in = ACCESS_TOKEN_EXPIRES_IN ∧
    respImplicitNoAT.expires_in = 1200 ∧
    respImplicitNoAT.refresh_token = Option.none ∧
    (respImplicitNoAT.access_token.isSome ↔ argsImplicitNoAT.include_access_token = true) ∧
    respImplicitNoAT.id_token.audiences.isSome :=
  implicit_response_shape envA clientA argsImplicitNoAT respImplicitNoAT (by decide)

end Fence
